import Mathlib

/-!
Shallow embedding of the `sentinel_int` crate (`src/lib.rs`, module
`int_sentinel`).

The crate encodes an `Option<u64>` in a single `u64` by reserving
`u64::max_value()` as a sentinel meaning "absent".  We model a `u64`
value as a `Nat` together with an explicit range hypothesis
`≤ 2^64 - 1` wherever the claim quantifies over the machine-integer
domain.  The one panicking operation (`new_with_some`, which panics on
the sentinel value) is modelled as returning `Option`, with `none`
standing for the panic.
-/

namespace SentinelInt

/-- `u64::max_value()`, the all-ones 64-bit pattern. -/
def U64_MAX : Nat := 2 ^ 64 - 1

/-- `pub struct IntSentinel { value: u64 }` — the raw stored integer. -/
structure IntSentinel where
  value : Nat
  deriving DecidableEq, Repr

/-- `IntSentinel::sentinel`: `u64::max_value()`. -/
def sentinel : Nat := U64_MAX

/-- `IntSentinel::max_value`: `IntSentinel::sentinel() - 1`. -/
def max_value : Nat := sentinel - 1

/-- `IntSentinel::new_none`: `IntSentinel { value: u64::max_value() }`. -/
def new_none : IntSentinel := ⟨U64_MAX⟩

/-- `IntSentinel::new_with_some`: panics (modelled as `none`) when the
argument equals `u64::max_value()`, otherwise stores it. -/
def new_with_some (v : Nat) : Option IntSentinel :=
  if v = U64_MAX then none else some ⟨v⟩

/-- `IntSentinel::to_option`: `None` when the raw value is the
sentinel, `Some(value)` otherwise. -/
def to_option (s : IntSentinel) : Option Nat :=
  if s.value = U64_MAX then none else some s.value

/-- `IntSentinel::unchecked_new`: stores the raw value with no check. -/
def unchecked_new (v : Nat) : IntSentinel := ⟨v⟩

/-- `IntSentinel::to_u64_unchecked`: returns the raw stored value. -/
def to_u64_unchecked (s : IntSentinel) : Nat := s.value

/-- `impl From<Option<u64>> for IntSentinel`: dispatches to
`new_with_some` / `new_none` per case; inherits the panic
(modelled as `none`) of `new_with_some`. -/
def fromOptionU64 (o : Option Nat) : Option IntSentinel :=
  match o with
  | some v => new_with_some v
  | none => some new_none

/-- `impl From<IntSentinel> for Option<u64>`: calls `to_option`. -/
def intoOptionU64 (s : IntSentinel) : Option Nat :=
  to_option s

/-- The legal domain of the codec as an `Option<u64>` value: `None`,
or `Some v` with `v` in `[0, MAX-1]`. -/
def legalOption (o : Option Nat) : Prop :=
  o = none ∨ ∃ v, o = some v ∧ v < U64_MAX

end SentinelInt

namespace SentinelInt

/-- C1: for every u64 value `v` in `[0, MAX-1]`, `new_with_some v`
succeeds and `to_option` on the result yields `some v` exactly. -/
theorem new_with_some_to_option_roundtrip (v : Nat) (h : v < U64_MAX) :
    ∃ s : IntSentinel, new_with_some v = some s ∧ to_option s = some v := by
  refine ⟨⟨v⟩, ?_, ?_⟩ <;>
    simp [new_with_some, to_option, Nat.ne_of_lt h]

/-- Witness for C1 at `v = 42`. -/
theorem new_with_some_to_option_roundtrip_witness :
    ∃ s : IntSentinel, new_with_some 42 = some s ∧ to_option s = some 42 :=
  new_with_some_to_option_roundtrip 42 (by decide)

/-- C2: for u64 inputs, `new_with_some v` fails exactly when
`v = 18446744073709551615`; for every other `v` it succeeds and the
stored raw value is exactly `v`. -/
theorem new_with_some_fails_iff_sentinel (v : Nat) (h : v ≤ U64_MAX) :
    (new_with_some v = none ↔ v = 18446744073709551615) ∧
      (v ≠ 18446744073709551615 →
        new_with_some v = some ⟨v⟩) := by
  have hmax : U64_MAX = 18446744073709551615 := by decide
  constructor
  · rw [hmax] at *
    constructor
    · intro hn
      by_contra hne
      simp [new_with_some, U64_MAX, hne] at hn
    · intro he
      simp [new_with_some, U64_MAX, he]
  · intro hne
    rw [hmax] at *
    simp [new_with_some, U64_MAX, hne]

/-- Witness for C2 at `v = 0`. -/
theorem new_with_some_fails_iff_sentinel_witness :
    (new_with_some 0 = none ↔ (0 : Nat) = 18446744073709551615) ∧
      ((0 : Nat) ≠ 18446744073709551615 →
        new_with_some 0 = some ⟨0⟩) :=
  new_with_some_fails_iff_sentinel 0 (by decide)

/-- C3: `new_none` stores the raw value `MAX` and `to_option` on it
yields `none`. -/
theorem new_none_to_option :
    new_none.value = U64_MAX ∧ to_option new_none = none := by
  constructor
  · rfl
  · simp [to_option, new_none]

/-- C4: the codec is lossless on its legal domain: for every
`Option<u64>` that is `none` or `some v` with `v < MAX`, converting to
an `IntSentinel` and back returns the original option exactly. -/
theorem from_into_option_roundtrip (o : Option Nat) (h : legalOption o) :
    ∃ s : IntSentinel, fromOptionU64 o = some s ∧ intoOptionU64 s = o := by
  rcases h with h | ⟨v, rfl, hv⟩
  · subst h
    exact ⟨new_none, rfl, by simp [intoOptionU64, to_option, new_none]⟩
  · exact ⟨⟨v⟩, by simp [fromOptionU64, new_with_some, Nat.ne_of_lt hv],
      by simp [intoOptionU64, to_option, Nat.ne_of_lt hv]⟩

/-- Witness for C4 at `o = some 42`. -/
theorem from_into_option_roundtrip_witness :
    ∃ s : IntSentinel,
      fromOptionU64 (some 42) = some s ∧ intoOptionU64 s = some 42 :=
  from_into_option_roundtrip (some 42) (Or.inr ⟨42, rfl, by decide⟩)

/-- C5: `unchecked_new` never fails, and decoding its result yields
`none` when the raw value is `MAX` and `some raw` otherwise; in
particular `unchecked_new sentinel` decodes to `none` and
`unchecked_new 42` decodes to `some 42`. -/
theorem unchecked_new_to_option (raw : Nat) (h : raw ≤ U64_MAX) :
    to_option (unchecked_new raw) =
        (if raw = U64_MAX then none else some raw) ∧
      to_option (unchecked_new sentinel) = none ∧
      to_option (unchecked_new 42) = some 42 := by
  refine ⟨rfl, ?_, ?_⟩ <;> simp [to_option, unchecked_new, sentinel, U64_MAX]

/-- Witness for C5 at `raw = 0`. -/
theorem unchecked_new_to_option_witness :
    to_option (unchecked_new 0) =
        (if (0 : Nat) = U64_MAX then none else some 0) ∧
      to_option (unchecked_new sentinel) = none ∧
      to_option (unchecked_new 42) = some 42 :=
  unchecked_new_to_option 0 (by decide)

/-- C6: `to_u64_unchecked` returns the stored raw integer unconverted:
on `new_none` it returns exactly `sentinel`, and on the instance built
by `new_with_some v` for `v < MAX` it returns exactly `v`. -/
theorem to_u64_unchecked_raw (v : Nat) (h : v < U64_MAX) :
    to_u64_unchecked new_none = sentinel ∧
      ∀ s : IntSentinel, new_with_some v = some s → to_u64_unchecked s = v := by
  constructor
  · rfl
  · intro s hs
    simp [new_with_some, Nat.ne_of_lt h] at hs
    subst hs
    rfl

/-- Witness for C6 at `v = 42`. -/
theorem to_u64_unchecked_raw_witness :
    to_u64_unchecked new_none = sentinel ∧
      ∀ s : IntSentinel,
        new_with_some 42 = some s → to_u64_unchecked s = 42 :=
  to_u64_unchecked_raw 42 (by decide)

/-- C7: for every legal u64 raw value `r`, decoding `r` and
re-encoding the resulting option reproduces an instance whose raw
value is exactly `r`. -/
theorem decode_encode_idempotent (r : Nat) (h : r ≤ U64_MAX) :
    ∃ s : IntSentinel,
      fromOptionU64 (to_option (unchecked_new r)) = some s ∧ s.value = r := by
  by_cases hr : r = U64_MAX
  · subst hr
    exact ⟨new_none, by simp [fromOptionU64, to_option, unchecked_new], rfl⟩
  · exact ⟨⟨r⟩,
      by simp [fromOptionU64, to_option, unchecked_new, new_with_some, hr], rfl⟩

/-- Witness for C7 at `r = sentinel`. -/
theorem decode_encode_idempotent_witness :
    ∃ s : IntSentinel,
      fromOptionU64 (to_option (unchecked_new U64_MAX)) = some s ∧
        s.value = U64_MAX :=
  decode_encode_idempotent U64_MAX (Nat.le_refl _)

/-- C8: `max_value = sentinel - 1`, `sentinel` is
`MAX = 2^64 - 1 = 18446744073709551615`, and the largest representable
present payload is `MAX - 1`; both are pure constants. -/
theorem max_value_sentinel_constants :
    max_value = sentinel - 1 ∧
      sentinel = 2 ^ 64 - 1 ∧
      sentinel = 18446744073709551615 ∧
      max_value = 18446744073709551615 - 1 := by
  refine ⟨rfl, rfl, ?_, ?_⟩ <;> decide

/-- C9: the option-to-codec conversion is exactly the case dispatch to
the named constructors — it maps `some v` to `new_with_some v` and
`none` to `some new_none`, and fails exactly when the wrapped value
equals `MAX` — and the codec-to-option conversion equals `to_option`
and never fails. -/
theorem from_impls_dispatch (v : Nat) (s : IntSentinel) :
    fromOptionU64 (some v) = new_with_some v ∧
      fromOptionU64 none = some new_none ∧
      (fromOptionU64 (some v) = none ↔ v = U64_MAX) ∧
      intoOptionU64 s = to_option s := by
  refine ⟨rfl, rfl, ?_, rfl⟩
  simp [fromOptionU64, new_with_some]

/-- C10: `to_option` never returns `some MAX`: for every instance with
a u64 raw value, the result is `none` or `some v` with
`v ≤ max_value`; moreover for every `v < MAX` the checked and
unchecked constructors produce instances with identical raw value and
identical `to_option` result. -/
theorem to_option_never_sentinel (s : IntSentinel) (hs : s.value ≤ U64_MAX)
    (v : Nat) (hv : v < U64_MAX) :
    (to_option s = none ∨
        ∃ w, to_option s = some w ∧ w ≤ max_value) ∧
      new_with_some v = some (unchecked_new v) ∧
      (unchecked_new v).value = v ∧
      to_option (unchecked_new v) = some v := by
  refine ⟨?_, ?_, rfl, ?_⟩
  · by_cases h : s.value = U64_MAX
    · exact Or.inl (by simp [to_option, h])
    · refine Or.inr ⟨s.value, by simp [to_option, h], ?_⟩
      have : s.value < U64_MAX := Nat.lt_of_le_of_ne hs h
      have hmax : max_value = U64_MAX - 1 := rfl
      omega
  · simp [new_with_some, unchecked_new, Nat.ne_of_lt hv]
  · simp [to_option, unchecked_new, Nat.ne_of_lt hv]

/-- Witness for C10 at `s = new_none`, `v = 42`. -/
theorem to_option_never_sentinel_witness :
    (to_option new_none = none ∨
        ∃ w, to_option new_none = some w ∧ w ≤ max_value) ∧
      new_with_some 42 = some (unchecked_new 42) ∧
      (unchecked_new 42).value = 42 ∧
      to_option (unchecked_new 42) = some 42 :=
  to_option_never_sentinel new_none (by decide) 42 (by decide)

end SentinelInt
